import Mathlib

/-!
Shallow embedding of `src/app/app.go` (package `app` of baffau-go-devkit):
a process lifecycle coordinator with a main-loop/signal race, a grace-period
delay, and an ordered chain of shutdown handlers.

Modelling conventions:
* A Go `error` value is `Option String` (`none` = the nil error; `some e` is a
  non-nil error whose `Error()` method yields `e`).  Calling `.Error()` on a
  nil error interface is a runtime panic, modelled by `errorCall`.
* Go functions that may panic return `GoResult α`: either `.ok a` or
  `.panicked msg`.
* `context.Context` values are the inductive `Ctx`; `Shutdown` receives one
  and threads it to every handler unchanged (the code never wraps it).
* The process-wide `defaultApp` global is passed explicitly as an
  `Option App` argument to every method, mirroring the nil checks at
  app.go lines 48, 94 and 114.
* Logging is observable: `Shutdown` records the `slog` events it emits, and
  `RunAndWait` records a trace of log events, `time.Sleep` calls and
  `a.Shutdown(ctx)` invocations.
* The race in `RunAndWait` (app.go lines 73-83) is resolved by an explicit
  `RacePath` parameter choosing which `select` arm fires; the `mainDone` arm
  can only fire when the main-loop goroutine actually sent a value on the
  `errs` channel (captured by `mainLoopOutcome`), otherwise that choice
  blocks forever.
-/

namespace GoApp

/-- Result of running a Go function: a normal return or an escaped panic. -/
inductive GoResult (α : Type) where
  | ok : α → GoResult α
  | panicked : String → GoResult α
deriving Repr, DecidableEq

/-- A Go `error` interface value: `none` is the nil error. -/
abbrev GoError := Option String

/-- Calling `.Error()` on a Go error: panics on the nil interface value. -/
def errorCall : GoError → GoResult String
  | none => .panicked "runtime error: invalid memory address or nil pointer dereference"
  | some s => .ok s

/-- `context.Context` values: `context.Background()` and deadline wrappers.
`App.Shutdown` never wraps the context it receives, so handlers only ever see
the argument context itself. -/
inductive Ctx where
  | background : Ctx
  | withTimeout : Ctx → Nat → Ctx
deriving Repr, DecidableEq

/-- `slog` levels used by the code. -/
inductive LogLevel where
  | info
  | error
deriving Repr, DecidableEq

/-- A structured log record: level, message, and `slog.String` attributes. -/
structure LogEvent where
  level : LogLevel
  msg : String
  attrs : List (String × String)
deriving Repr, DecidableEq

/-- `type ShutdownHandler func(context.Context) error` (app.go line 24);
may panic, hence the `GoResult`. -/
abbrev ShutdownHandler := Ctx → GoResult GoError

/-- `type MainLoopFunc func() error` (app.go line 26); may panic. -/
abbrev MainLoopFunc := Unit → GoResult GoError

/-- Durations in nanoseconds, as Go's `time.Duration` counts them. -/
abbrev Duration := Nat

/-- `time.Second` in nanoseconds. -/
def timeSecond : Duration := 1000000000

/-- `DefaultGracePeriod = 3 * time.Second` (app.go line 17). -/
def DefaultGracePeriod : Duration := 3 * timeSecond

/-- `DefaultShutdownTimeout = 5 * time.Second` (app.go line 19). -/
def DefaultShutdownTimeout : Duration := 5 * timeSecond

/-- The `App` struct (app.go lines 29-34); the `slog.Logger` field is the
observable log sink and is modelled by the traces below rather than stored. -/
structure App where
  GracePeriod : Duration
  ShutdownTimeout : Duration
  shutdownHandlers : List ShutdownHandler

/-- The `App` value installed by `NewDefaultApp` (app.go lines 37-45):
default durations, no handlers. -/
def NewDefaultApp : App :=
  { GracePeriod := DefaultGracePeriod
    ShutdownTimeout := DefaultShutdownTimeout
    shutdownHandlers := [] }

/-- The error record emitted at app.go lines 101-105 when a shutdown handler
returns a non-nil error. -/
def shutdownHandlerErrLog (e : String) : LogEvent :=
  { level := .error
    msg := "error executing shutdown handler"
    attrs := [("module", "app/app"), ("source", "app.Shutdown"), ("error", e)] }

/-- Everything observable about one `Shutdown` call: which handler indices
were invoked (in order), the context passed to each invocation, the log
events emitted, and the returned error or escaped panic. -/
structure ShutdownObs where
  invoked : List Nat
  ctxs : List Ctx
  logs : List LogEvent
  result : GoResult GoError
deriving Repr, DecidableEq

/-- The handler loop of `Shutdown` (app.go lines 98-107), instrumented with
the index `i` of the next handler.  A handler panic escapes immediately
(there is no `recover` in `Shutdown`), so later handlers never run; a non-nil
returned error is logged and the loop continues; the loop itself always
returns nil (app.go line 109). -/
def runHandlers (ctx : Ctx) : List ShutdownHandler → Nat → ShutdownObs
  | [], _ => { invoked := [], ctxs := [], logs := [], result := .ok none }
  | f :: rest, i =>
    match f ctx with
    | .panicked m => { invoked := [i], ctxs := [ctx], logs := [], result := .panicked m }
    | .ok none =>
      let o := runHandlers ctx rest (i + 1)
      { o with invoked := i :: o.invoked, ctxs := ctx :: o.ctxs }
    | .ok (some e) =>
      let o := runHandlers ctx rest (i + 1)
      { invoked := i :: o.invoked
        ctxs := ctx :: o.ctxs
        logs := shutdownHandlerErrLog e :: o.logs
        result := o.result }

/-- `func (a *App) Shutdown(ctx context.Context) error` (app.go lines 93-110).
Panics when the process-wide `defaultApp` is nil, regardless of the receiver
`a`; otherwise runs every handler of `a` in registration order and returns
nil. -/
def App.Shutdown (defaultApp : Option App) (a : App) (ctx : Ctx) : ShutdownObs :=
  match defaultApp with
  | none => { invoked := [], ctxs := [], logs := [], result := .panicked "default app not initialized" }
  | some _ => runHandlers ctx a.shutdownHandlers 0

/-- `func (a *App) RegisterShutdownHandler(handler ShutdownHandler)`
(app.go lines 113-119): panics when `defaultApp` is nil, otherwise appends to
the receiver's handler list. -/
def App.RegisterShutdownHandler (defaultApp : Option App) (a : App)
    (handler : ShutdownHandler) : GoResult App :=
  match defaultApp with
  | none => .panicked "default app not initialized"
  | some _ => .ok { a with shutdownHandlers := a.shutdownHandlers ++ [handler] }

/-- One entry of the observable trace of `RunAndWait`: a log event, a
`time.Sleep(d)`, or an `a.Shutdown(ctx)` invocation. -/
inductive TraceEntry where
  | log : LogEvent → TraceEntry
  | sleep : Duration → TraceEntry
  | shutdownCall : Ctx → TraceEntry
deriving Repr, DecidableEq

/-- How a `RunAndWait` invocation ends: a normal return, an escaped panic, or
blocking forever because the chosen `select` arm can never fire. -/
inductive RunOutcome where
  | returned
  | panicked : String → RunOutcome
  | blocked
deriving Repr, DecidableEq

/-- The observable behaviour of one `RunAndWait` call. -/
structure RunObs where
  trace : List TraceEntry
  outcome : RunOutcome
deriving Repr, DecidableEq

/-- Which arm of the `select` at app.go lines 73-83 fires. -/
inductive RacePath where
  | signal
  | mainDone
deriving Repr, DecidableEq

/-- What the main-loop goroutine (app.go lines 55-66) sends on the `errs`
channel: `some e` when a value is sent, `none` when nothing is ever sent.
A nil `mainLoop` sends `errors.New("main loop is nil")`; a panicking main
loop is caught by the deferred `recover()` and sends nothing. -/
def mainLoopOutcome : Option MainLoopFunc → Option GoError
  | none => some (some "main loop is nil")
  | some f =>
    match f () with
    | .panicked _ => none
    | .ok e => some e

/-- An info-level log event with no attributes. -/
def infoLog (m : String) : LogEvent := { level := .info, msg := m, attrs := [] }

/-- An error-level log event with a single `slog.String("error", e)`. -/
def errLog (m : String) (e : String) : LogEvent :=
  { level := .error, msg := m, attrs := [("error", e)] }

/-- app.go line 51. -/
def startLog : LogEvent := infoLog "[app] Starting run and wait."

/-- app.go line 75. -/
def sigLog : LogEvent :=
  infoLog "Graceful shutdown signal received! Awaiting for grace period to end."

/-- app.go line 77. -/
def graceOverLog : LogEvent :=
  infoLog "Grace period is over, initiating shutdown procedures..."

/-- app.go lines 80-81 (only emitted when `err.Error()` did not panic). -/
def mainDoneLog (e : String) : LogEvent :=
  errLog "Main Loop finished by itself, initiating shutdown procedures..." e

/-- app.go line 85. -/
def successLog : LogEvent := infoLog "App gracefully terminated."

/-- app.go lines 87-88. -/
def termErrLog (e : String) : LogEvent := errLog "App terminated with error" e

/-- The tail of the `RunAndWait` trace contributed by the `Shutdown` call and
the final success/error report (app.go lines 84-89): `Shutdown`'s own log
events, then — unless `Shutdown` panicked — the overall outcome log.
`Shutdown` always returns nil, but the dead `err != nil` branch of the code
is modelled faithfully. -/
def shutdownTrace (obs : ShutdownObs) : List TraceEntry :=
  match obs.result with
  | .panicked _ => obs.logs.map .log
  | .ok none => obs.logs.map .log ++ [.log successLog]
  | .ok (some e) => obs.logs.map .log ++ [.log (termErrLog e)]

/-- How `RunAndWait` ends after the `Shutdown` call: a handler panic escapes
(no `recover` on this path), otherwise a normal return. -/
def shutdownOutcome (obs : ShutdownObs) : RunOutcome :=
  match obs.result with
  | .panicked m => .panicked m
  | .ok _ => .returned

/-- `func (a *App) RunAndWait(mainLoop MainLoopFunc)` (app.go lines 47-90).
Panics up front when `defaultApp` is nil.  On the signal arm it logs, sleeps
the full grace period, logs again and calls `Shutdown` with
`context.Background()`.  On the main-loop arm it first evaluates
`err.Error()` for the log call at lines 80-81: when the main loop sent a nil
error this panics (nil interface dereference) before anything is logged or
shut down; otherwise the error text is logged and `Shutdown` runs.  When the
goroutine never sends and `mainDone` is chosen, the `select` blocks
forever. -/
def App.RunAndWait (defaultApp : Option App) (a : App)
    (mainLoop : Option MainLoopFunc) (path : RacePath) : RunObs :=
  match defaultApp with
  | none => { trace := [], outcome := .panicked "default app not initialized" }
  | some d =>
    match path with
    | .signal =>
      let obs := App.Shutdown (some d) a Ctx.background
      { trace := .log startLog :: .log sigLog :: .sleep a.GracePeriod ::
          .log graceOverLog :: .shutdownCall Ctx.background :: shutdownTrace obs
        outcome := shutdownOutcome obs }
    | .mainDone =>
      match mainLoopOutcome mainLoop with
      | none => { trace := [.log startLog], outcome := .blocked }
      | some err =>
        match errorCall err with
        | .panicked m => { trace := [.log startLog], outcome := .panicked m }
        | .ok e =>
          let obs := App.Shutdown (some d) a Ctx.background
          { trace := .log startLog :: .log (mainDoneLog e) ::
              .shutdownCall Ctx.background :: shutdownTrace obs
            outcome := shutdownOutcome obs }

/-- Number of `a.Shutdown(ctx)` invocations recorded in a trace. -/
def shutdownCallCount (t : List TraceEntry) : Nat :=
  t.countP fun e =>
    match e with
    | .shutdownCall _ => true
    | _ => false

/-! ### Concrete inputs used by the witnesses -/

/-- A main loop that returns immediately with a nil error. -/
def nilErrMain : MainLoopFunc := fun _ => .ok none

/-- A main loop whose body panics. -/
def panickingMain : MainLoopFunc := fun _ => .panicked "boom"

/-- A handler that succeeds on every context. -/
def okHandler : ShutdownHandler := fun _ => .ok none

/-- A handler that fails with an error on every context. -/
def failHandler : ShutdownHandler := fun _ => .ok (some "disk flush failed")

/-- A handler that panics on every context. -/
def panicHandler : ShutdownHandler := fun _ => .panicked "handler exploded"

/-- An initialized app with one failing and one succeeding handler. -/
def appTwoHandlers : App :=
  { GracePeriod := 0
    ShutdownTimeout := DefaultShutdownTimeout
    shutdownHandlers := [failHandler, okHandler] }

/-! ### Helper lemmas about the handler loop -/

/-- When every handler in `l` returns (no panic), the instrumented loop
starting at index `i` invokes them all in order with the unchanged context,
logs exactly the failing ones, and ends with the nil return. -/
theorem runHandlers_all_ok (ctx : Ctx) (l : List ShutdownHandler) (i : Nat)
    (h : ∀ f ∈ l, ∃ r, f ctx = .ok r) :
    runHandlers ctx l i =
      { invoked := List.range' i l.length
        ctxs := List.replicate l.length ctx
        logs := l.filterMap fun f =>
          match f ctx with
          | .ok (some e) => some (shutdownHandlerErrLog e)
          | _ => none
        result := .ok none } := by
  induction l generalizing i with
  | nil => rfl
  | cons f rest ih =>
    obtain ⟨r, hr⟩ := h f (List.mem_cons_self f rest)
    have hrest : ∀ g ∈ rest, ∃ r, g ctx = .ok r :=
      fun g hg => h g (List.mem_cons_of_mem f hg)
    cases r with
    | none =>
      simp [runHandlers, hr, ih (i + 1) hrest, List.range', List.replicate,
        List.filterMap_cons]
    | some e =>
      simp [runHandlers, hr, ih (i + 1) hrest, List.range', List.replicate,
        List.filterMap_cons]

/-- Regardless of handler behaviour, every invoked handler received exactly
the loop's context: the context list is the invocation list's length worth of
copies of `ctx`. -/
theorem runHandlers_ctxs_replicate (ctx : Ctx) (l : List ShutdownHandler) (i : Nat) :
    (runHandlers ctx l i).ctxs =
      List.replicate (runHandlers ctx l i).invoked.length ctx := by
  induction l generalizing i with
  | nil => rfl
  | cons f rest ih =>
    match hr : f ctx with
    | .panicked m => simp [runHandlers, hr, List.replicate]
    | .ok none => simp [runHandlers, hr, ih (i + 1), List.replicate]
    | .ok (some e) => simp [runHandlers, hr, ih (i + 1), List.replicate]

/-- The loop never reads the `App` fields other than the handler list, so its
output only depends on the context and the list (trivially, by definition);
stated as: the instrumented loop on `pre ++ f :: post` where `pre` all
return and `f` panics invokes exactly `pre` and `f`, then propagates the
panic. -/
theorem runHandlers_panic_stops (ctx : Ctx) (pre post : List ShutdownHandler)
    (f : ShutdownHandler) (m : String) (i : Nat)
    (hpre : ∀ g ∈ pre, ∃ r, g ctx = .ok r)
    (hf : f ctx = .panicked m) :
    (runHandlers ctx (pre ++ f :: post) i).invoked = List.range' i (pre.length + 1) ∧
    (runHandlers ctx (pre ++ f :: post) i).result = .panicked m := by
  induction pre generalizing i with
  | nil =>
    simp [runHandlers, hf, List.range']
  | cons g rest ih =>
    obtain ⟨r, hg⟩ := hpre g (List.mem_cons_self g rest)
    have hrest : ∀ g ∈ rest, ∃ r, g ctx = .ok r :=
      fun q hq => hpre q (List.mem_cons_of_mem g hq)
    obtain ⟨h1, h2⟩ := ih (i + 1) hrest
    cases r with
    | none =>
      simp [runHandlers, hg, h1, h2, List.range']
    | some e =>
      simp [runHandlers, hg, h1, h2, List.range']

/-- A run of pure log entries contains no `Shutdown` invocation. -/
theorem shutdownCallCount_map_log (l : List LogEvent) :
    shutdownCallCount (l.map .log) = 0 := by
  induction l with
  | nil => rfl
  | cons e rest ih => simp [shutdownCallCount, List.countP_cons]

/-- The trace contributed after the `Shutdown` call consists of log entries
only, so it contains no further `Shutdown` invocation. -/
theorem shutdownCallCount_shutdownTrace (obs : ShutdownObs) :
    shutdownCallCount (shutdownTrace obs) = 0 := by
  match hres : obs.result with
  | .panicked m => simp [shutdownTrace, hres, shutdownCallCount_map_log]
  | .ok none =>
    simp [shutdownTrace, hres, shutdownCallCount, List.countP_append,
      List.countP_cons]
  | .ok (some e) =>
    simp [shutdownTrace, hres, shutdownCallCount, List.countP_append,
      List.countP_cons]

/-! ### Claim theorems -/

/-- Claim C1 — code-bug evidence.  The claim says a main loop returning
immediately with no error triggers exactly one `Shutdown` call and a success
log without crashing; instead, when the main-loop arm fires with a nil error,
`RunAndWait` evaluates `err.Error()` on the nil error interface (app.go line
81) and panics before any `Shutdown` call or success log. -/
theorem c1_nil_error_main_panics_before_shutdown :
    (App.RunAndWait (some NewDefaultApp) NewDefaultApp (some nilErrMain)
        RacePath.mainDone).outcome
      = RunOutcome.panicked
          "runtime error: invalid memory address or nil pointer dereference" ∧
    shutdownCallCount
      (App.RunAndWait (some NewDefaultApp) NewDefaultApp (some nilErrMain)
        RacePath.mainDone).trace = 0 ∧
    TraceEntry.log successLog ∉
      (App.RunAndWait (some NewDefaultApp) NewDefaultApp (some nilErrMain)
        RacePath.mainDone).trace := by
  refine ⟨rfl, rfl, ?_⟩
  decide

/-- Claim C2: for every sequence of registered cleanup actions that return
(with or without an error), `Shutdown` invokes all of them, in registration
order — the invoked indices are exactly `0, 1, …, N-1`. -/
theorem c2_shutdown_invokes_all_in_order (d a : App) (ctx : Ctx)
    (h : ∀ f ∈ a.shutdownHandlers, ∃ r, f ctx = .ok r) :
    (App.Shutdown (some d) a ctx).invoked
      = List.range a.shutdownHandlers.length := by
  simp [App.Shutdown, runHandlers_all_ok ctx a.shutdownHandlers 0 h,
    List.range_eq_range']

/-- Witness for C2: a concrete app whose first handler fails and second
succeeds; both are invoked, in order. -/
theorem c2_witness :
    (∀ f ∈ appTwoHandlers.shutdownHandlers, ∃ r, f Ctx.background = .ok r) ∧
    (App.Shutdown (some appTwoHandlers) appTwoHandlers Ctx.background).invoked
      = List.range appTwoHandlers.shutdownHandlers.length := by
  have h : ∀ f ∈ appTwoHandlers.shutdownHandlers, ∃ r, f Ctx.background = .ok r := by
    intro f hf
    simp [appTwoHandlers] at hf
    rcases hf with rfl | rfl
    · exact ⟨some "disk flush failed", rfl⟩
    · exact ⟨none, rfl⟩
  exact ⟨h, c2_shutdown_invokes_all_in_order appTwoHandlers appTwoHandlers
    Ctx.background h⟩

/-- Claim C3: a nil main-loop callable is treated as an immediate main-loop
failure: `RunAndWait` does not panic, logs the descriptive error
"main loop is nil", and still calls `Shutdown` exactly once. -/
theorem c3_nil_mainloop_handled (d a : App)
    (h : ∀ f ∈ a.shutdownHandlers, ∃ r, f Ctx.background = .ok r) :
    (App.RunAndWait (some d) a none RacePath.mainDone).outcome
      = RunOutcome.returned ∧
    TraceEntry.log (mainDoneLog "main loop is nil") ∈
      (App.RunAndWait (some d) a none RacePath.mainDone).trace ∧
    shutdownCallCount
      (App.RunAndWait (some d) a none RacePath.mainDone).trace = 1 := by
  have hobs := runHandlers_all_ok Ctx.background a.shutdownHandlers 0 h
  refine ⟨?_, ?_, ?_⟩
  · simp [App.RunAndWait, mainLoopOutcome, errorCall, App.Shutdown, hobs,
      shutdownOutcome]
  · simp [App.RunAndWait, mainLoopOutcome, errorCall]
  · simp [App.RunAndWait, mainLoopOutcome, errorCall, shutdownCallCount,
      List.countP_cons]
    have := shutdownCallCount_shutdownTrace (App.Shutdown (some d) a Ctx.background)
    simpa [shutdownCallCount] using this

/-- Witness for C3 at the default app (no handlers). -/
theorem c3_witness :
    (∀ f ∈ NewDefaultApp.shutdownHandlers, ∃ r, f Ctx.background = .ok r) ∧
    ((App.RunAndWait (some NewDefaultApp) NewDefaultApp none
        RacePath.mainDone).outcome = RunOutcome.returned ∧
     TraceEntry.log (mainDoneLog "main loop is nil") ∈
       (App.RunAndWait (some NewDefaultApp) NewDefaultApp none
         RacePath.mainDone).trace ∧
     shutdownCallCount
       (App.RunAndWait (some NewDefaultApp) NewDefaultApp none
         RacePath.mainDone).trace = 1) := by
  have h : ∀ f ∈ NewDefaultApp.shutdownHandlers, ∃ r, f Ctx.background = .ok r := by
    intro f hf
    simp [NewDefaultApp] at hf
  exact ⟨h, c3_nil_mainloop_handled NewDefaultApp NewDefaultApp h⟩

/-- Claim C4: when every registered action returns, `Shutdown` returns the
nil error even if some actions failed, and emits exactly one error record per
failing action, in order, each carrying the module/source attribution and the
action's error text. -/
theorem c4_shutdown_nil_return_and_failure_logs (d a : App) (ctx : Ctx)
    (h : ∀ f ∈ a.shutdownHandlers, ∃ r, f ctx = .ok r) :
    (App.Shutdown (some d) a ctx).result = .ok none ∧
    (App.Shutdown (some d) a ctx).logs =
      a.shutdownHandlers.filterMap (fun f =>
        match f ctx with
        | .ok (some e) => some (shutdownHandlerErrLog e)
        | _ => none) := by
  simp [App.Shutdown, runHandlers_all_ok ctx a.shutdownHandlers 0 h]

/-- Witness for C4: the two-handler app returns nil overall and logs exactly
the first handler's failure with module/source attribution. -/
theorem c4_witness :
    (∀ f ∈ appTwoHandlers.shutdownHandlers, ∃ r, f Ctx.background = .ok r) ∧
    ((App.Shutdown (some appTwoHandlers) appTwoHandlers Ctx.background).result
        = .ok none ∧
     (App.Shutdown (some appTwoHandlers) appTwoHandlers Ctx.background).logs =
       appTwoHandlers.shutdownHandlers.filterMap (fun f =>
         match f Ctx.background with
         | .ok (some e) => some (shutdownHandlerErrLog e)
         | _ => none)) := by
  have h : ∀ f ∈ appTwoHandlers.shutdownHandlers, ∃ r, f Ctx.background = .ok r := by
    intro f hf
    simp [appTwoHandlers] at hf
    rcases hf with rfl | rfl
    · exact ⟨some "disk flush failed", rfl⟩
    · exact ⟨none, rfl⟩
  exact ⟨h, c4_shutdown_nil_return_and_failure_logs appTwoHandlers appTwoHandlers
    Ctx.background h⟩

/-- Claim C5: whenever the signal arm wins the race, the trace begins with
the start log, the signal-received log, an unconditional full sleep of the
configured grace period, the grace-over log, and only then the `Shutdown`
invocation — for every app and every main loop. -/
theorem c5_signal_path_grace_then_shutdown (d a : App) (ml : Option MainLoopFunc) :
    ∃ rest,
      (App.RunAndWait (some d) a ml RacePath.signal).trace =
        TraceEntry.log startLog :: TraceEntry.log sigLog ::
        TraceEntry.sleep a.GracePeriod :: TraceEntry.log graceOverLog ::
        TraceEntry.shutdownCall Ctx.background :: rest :=
  ⟨shutdownTrace (App.Shutdown (some d) a Ctx.background), rfl⟩

/-- Claim C6: a panic inside the main-loop callable is swallowed by the
goroutine's deferred `recover`: nothing is sent on the `errs` channel, the
main-loop arm of the race can never fire (it blocks rather than panicking or
shutting down), so only a signal can resolve the race. -/
theorem c6_mainloop_panic_contained (d a : App) (f : MainLoopFunc) (m : String)
    (h : f () = .panicked m) :
    mainLoopOutcome (some f) = none ∧
    (App.RunAndWait (some d) a (some f) RacePath.mainDone).outcome
      = RunOutcome.blocked ∧
    shutdownCallCount
      (App.RunAndWait (some d) a (some f) RacePath.mainDone).trace = 0 := by
  have ho : mainLoopOutcome (some f) = none := by simp [mainLoopOutcome, h]
  refine ⟨ho, ?_, ?_⟩ <;>
    simp [App.RunAndWait, ho, shutdownCallCount, List.countP_cons]

/-- Witness for C6 at a concrete panicking main loop. -/
theorem c6_witness :
    panickingMain () = .panicked "boom" ∧
    (mainLoopOutcome (some panickingMain) = none ∧
     (App.RunAndWait (some NewDefaultApp) NewDefaultApp (some panickingMain)
        RacePath.mainDone).outcome = RunOutcome.blocked ∧
     shutdownCallCount
       (App.RunAndWait (some NewDefaultApp) NewDefaultApp (some panickingMain)
         RacePath.mainDone).trace = 0) :=
  ⟨rfl, c6_mainloop_panic_contained NewDefaultApp NewDefaultApp panickingMain
    "boom" rfl⟩

/-- Claim C7: with the process-wide default app absent, every lifecycle
operation panics with "default app not initialized" — even when invoked on an
explicitly constructed receiver `a`, since the check reads only the global. -/
theorem c7_uninitialized_default_panics (a : App) (ml : Option MainLoopFunc)
    (p : RacePath) (ctx : Ctx) (handler : ShutdownHandler) :
    (App.RunAndWait none a ml p).outcome
      = RunOutcome.panicked "default app not initialized" ∧
    (App.Shutdown none a ctx).result = .panicked "default app not initialized" ∧
    App.RegisterShutdownHandler none a handler
      = .panicked "default app not initialized" :=
  ⟨rfl, rfl, rfl⟩

/-- Claim C8: `ShutdownTimeout` is never wired into a deadline — two apps
that differ only in that field have identical `Shutdown` observations, and
every invoked handler receives exactly the context passed into `Shutdown`,
never a wrapped one. -/
theorem c8_shutdown_timeout_never_used (d a a' : App) (ctx : Ctx)
    (_hg : a.GracePeriod = a'.GracePeriod)
    (hh : a.shutdownHandlers = a'.shutdownHandlers) :
    App.Shutdown (some d) a ctx = App.Shutdown (some d) a' ctx ∧
    (App.Shutdown (some d) a ctx).ctxs =
      List.replicate (App.Shutdown (some d) a ctx).invoked.length ctx := by
  constructor
  · simp [App.Shutdown, hh]
  · simp [App.Shutdown, runHandlers_ctxs_replicate]

/-- An app identical to `appTwoHandlers` except for its `ShutdownTimeout`. -/
def appTwoHandlersOtherTimeout : App :=
  { GracePeriod := 0
    ShutdownTimeout := 985
    shutdownHandlers := [failHandler, okHandler] }

/-- Witness for C8 at two concrete apps differing only in the timeout. -/
theorem c8_witness :
    appTwoHandlers.GracePeriod = appTwoHandlersOtherTimeout.GracePeriod ∧
    appTwoHandlers.shutdownHandlers = appTwoHandlersOtherTimeout.shutdownHandlers ∧
    (App.Shutdown (some NewDefaultApp) appTwoHandlers Ctx.background
        = App.Shutdown (some NewDefaultApp) appTwoHandlersOtherTimeout Ctx.background ∧
     (App.Shutdown (some NewDefaultApp) appTwoHandlers Ctx.background).ctxs =
       List.replicate
         (App.Shutdown (some NewDefaultApp) appTwoHandlers Ctx.background).invoked.length
         Ctx.background) :=
  ⟨rfl, rfl, c8_shutdown_timeout_never_used NewDefaultApp appTwoHandlers
    appTwoHandlersOtherTimeout Ctx.background rfl rfl⟩

/-- Claim C9: with zero registered actions, `Shutdown` on an initialized app
is a pure no-op: nothing invoked, nothing logged, nil returned. -/
theorem c9_shutdown_no_handlers_noop (d : App) (gp st : Duration) (ctx : Ctx) :
    App.Shutdown (some d)
        { GracePeriod := gp, ShutdownTimeout := st, shutdownHandlers := [] } ctx
      = { invoked := [], ctxs := [], logs := [], result := .ok none } :=
  rfl

/-- Claim C10: a panic in a registered action is not recovered by `Shutdown`:
with actions `pre ++ [f] ++ post` where every action of `pre` returns and `f`
panics, the panic escapes `Shutdown` and only `pre` and `f` are invoked —
every action of `post` is skipped. -/
theorem c10_handler_panic_skips_rest (d : App) (gp st : Duration) (ctx : Ctx)
    (pre post : List ShutdownHandler) (f : ShutdownHandler) (m : String)
    (hpre : ∀ g ∈ pre, ∃ r, g ctx = .ok r)
    (hf : f ctx = .panicked m) :
    (App.Shutdown (some d) ⟨gp, st, pre ++ f :: post⟩ ctx).result
      = .panicked m ∧
    (App.Shutdown (some d) ⟨gp, st, pre ++ f :: post⟩ ctx).invoked
      = List.range (pre.length + 1) := by
  obtain ⟨h1, h2⟩ := runHandlers_panic_stops ctx pre post f m 0 hpre hf
  constructor
  · simpa [App.Shutdown] using h2
  · simp [App.Shutdown, h1, List.range_eq_range']

/-- Witness for C10: handlers `[okHandler, panicHandler, failHandler]`; the
panic escapes and only indices 0 and 1 are invoked. -/
theorem c10_witness :
    (∀ g ∈ [okHandler], ∃ r, g Ctx.background = .ok r) ∧
    panicHandler Ctx.background = .panicked "handler exploded" ∧
    ((App.Shutdown (some NewDefaultApp)
        ⟨0, 0, [okHandler] ++ panicHandler :: [failHandler]⟩ Ctx.background).result
        = .panicked "handler exploded" ∧
     (App.Shutdown (some NewDefaultApp)
        ⟨0, 0, [okHandler] ++ panicHandler :: [failHandler]⟩ Ctx.background).invoked
        = List.range 2) := by
  have hpre : ∀ g ∈ [okHandler], ∃ r, g Ctx.background = .ok r := by
    intro g hg
    simp at hg
    subst hg
    exact ⟨none, rfl⟩
  exact ⟨hpre, rfl, c10_handler_panic_skips_rest NewDefaultApp 0 0 Ctx.background
    [okHandler] [failHandler] panicHandler "handler exploded" hpre rfl⟩

end GoApp
